import Mathlib

/-!
# Verification of the login-form validation core and mock handlers

Shallow embedding of the schema-driven form validation core of the
`vitest-next-practice-2` repository together with its MSW mock handlers.

The sources embedded here:

* `src/components/form/login-form.stories.tsx` — the `LoginForm` component,
  its zod schema `loginFormSchema` (an email-format rule with message
  「有効なメールアドレスを入力してください」 and a minimum-length-8 rule with message
  「パスワードは8文字以上である必要があります」), and the rendered submit button.
* `src/mocks/handlers.ts` — the mock user list and the
  `GET /api/users/:id` handler.

The form session controller (value/touched/error state per field, submit
gating) is realized in the source by the external `react-hook-form` library
and is therefore modelled from the spec (§4.2) where noted.
-/

set_option autoImplicit false

namespace LoginSpec

/-! ## Email format check

The schema field `email: z.email('有効なメールアドレスを入力してください')` delegates to
zod v4's default email pattern
`^(?!\.)(?!.*\.\.)([A-Za-z0-9_'+\-\.]*)[A-Za-z0-9_+-]@([A-Za-z0-9][A-Za-z0-9\-]*\.)+[A-Za-z]{2,}$`.
We embed that pattern structurally: a local part over the permitted character
set whose last character is in the restricted set, not starting with a dot and
with no double dot anywhere, then `@`, then one or more labels each starting
with an alphanumeric character, separated by dots, ending in an alphabetic
top-level label of length at least 2. -/

/-- The apostrophe character permitted inside an email local part. -/
def apostropheChar : Char := Char.ofNat 39

/-- Characters permitted in the email local part, per the zod v4 pattern. -/
def localChar (c : Char) : Bool :=
  c.isAlpha || c.isDigit || c == '_' || c == apostropheChar || c == '+' || c == '-' || c == '.'

/-- Characters permitted as the final local-part character (just before `@`). -/
def localEnd (c : Char) : Bool :=
  c.isAlpha || c.isDigit || c == '_' || c == '+' || c == '-'

/-- Split a character list at the first `@`, returning the parts before and
after it, or `none` when no `@` occurs. -/
def splitLocalDomain : List Char → Option (List Char × List Char)
  | [] => none
  | c :: cs =>
    if c == '@' then some ([], cs)
    else
      match splitLocalDomain cs with
      | none => none
      | some (l, r) => some (c :: l, r)

/-- Split a character list on dots into its dot-separated components. -/
def splitOnDot : List Char → List (List Char)
  | [] => [[]]
  | c :: cs =>
    if c == '.' then [] :: splitOnDot cs
    else
      match splitOnDot cs with
      | [] => [[c]]
      | p :: ps => (c :: p) :: ps

/-- A domain label: nonempty, starts alphanumeric, continues with
alphanumerics or hyphens. -/
def labelOk : List Char → Bool
  | [] => false
  | c :: rest => (c.isAlpha || c.isDigit) && rest.all (fun x => x.isAlpha || x.isDigit || x == '-')

/-- The final (top-level) domain label: alphabetic only, length at least 2. -/
def tldOk (p : List Char) : Bool :=
  decide (2 ≤ p.length) && p.all Char.isAlpha

/-- The domain part: one or more labels followed by a top-level label,
dot-separated. -/
def domainOk (d : List Char) : Bool :=
  match (splitOnDot d).reverse with
  | [] => false
  | tld :: labels => (!labels.isEmpty) && labels.all labelOk && tldOk tld

/-- No two consecutive dots occur anywhere in the list (the `(?!.*\.\.)`
lookahead of the zod pattern). -/
def noDoubleDot : List Char → Bool
  | [] => true
  | [_] => true
  | c :: d :: rest => !(c == '.' && d == '.') && noDoubleDot (d :: rest)

/-- The local part: nonempty, not starting with a dot, all characters from the
permitted set with the final character from the restricted pre-`@` set. -/
def localOk (l : List Char) : Bool :=
  match l with
  | [] => false
  | c :: _ =>
    (!(c == '.')) && l.dropLast.all localChar &&
      (match l.getLast? with
       | none => false
       | some x => localEnd x)

/-- Whether a string matches the email shape checked by
`z.email(...)` in `loginFormSchema` (zod v4 default email pattern). -/
def isEmail (s : String) : Bool :=
  match splitLocalDomain s.data with
  | none => false
  | some (lp, dom) => noDoubleDot s.data && localOk lp && domainOk dom

/-! ## Validation rule engine -/

/-- A validation rule: a predicate on the raw string value plus the violation
message reported when the predicate fails (spec §4.1: "check(value) -> passed
boolean" + associated message). -/
structure Rule where
  check : String → Bool
  message : String

/-- One schema entry: field name, ordered rules, initial value (spec §3). -/
structure FieldSchema where
  name : String
  rules : List Rule
  initialValue : String

/-- The email format rule of `loginFormSchema`
(`z.email('有効なメールアドレスを入力してください')`). -/
def emailRule : Rule :=
  ⟨isEmail, "有効なメールアドレスを入力してください"⟩

/-- The password minimum-length rule of `loginFormSchema`
(`z.string().min(8, 'パスワードは8文字以上である必要があります')`): zod's `.min(8)` passes
exactly when the string length is at least 8 (inclusive bound). -/
def passwordMinRule : Rule :=
  ⟨fun v => decide (8 ≤ v.length), "パスワードは8文字以上である必要があります"⟩

/-- The login-form schema from the source: an email field with the format rule
and a password field with the minimum-length-8 rule; both inputs start empty
(`defaultValues: { email: '', password: '' }`). -/
def loginFormSchema : List FieldSchema :=
  [⟨"email", [emailRule], ""⟩, ⟨"password", [passwordMinRule], ""⟩]

/-- Evaluate a field's rules against a value, in declared order, stopping at
the first failing rule and reporting its message; `none` when all pass
(spec §4.1 first-failure-wins). -/
def evalField (rules : List Rule) (v : String) : Option String :=
  match rules with
  | [] => none
  | r :: rs => if r.check v then evalField rs v else some r.message

/-- Look up a field's value in a value set; fields absent from the value set
are treated as empty (spec §4.1). -/
def lookupValue (values : List (String × String)) (name : String) : String :=
  match values.find? (fun p => p.1 == name) with
  | some p => p.2
  | none => ""

/-- The rule engine (spec §4.1): `evaluate(schema, values)` produces, per
schema field in order, the optional violation message for that field. -/
def evaluate (schema : List FieldSchema) (values : List (String × String)) :
    List (String × Option String) :=
  schema.map (fun f => (f.name, evalField f.rules (lookupValue values f.name)))

/-! ## Form session controller

Modelled from the spec: the controller (spec §4.2) is realized in the source
by the external `react-hook-form` library (`useForm` with
`resolver: zodResolver(loginFormSchema)` and `mode: 'onChange'`), whose
internals are not part of this repository; its operations `setFieldValue`,
`blurField` and `attemptSubmit` are modelled faithfully from the spec's words.
`attemptSubmit` additionally returns the list of submit-callback invocations
it causes (each invocation carrying the clean value set handed to the injected
callback), so that invocation counts are observable in the model; its
suspension point is split into `attemptSubmit` (validate, set `submitting`,
invoke) and `settleSubmit` (clear `submitting` on settlement). -/

/-- Per-field controller state (spec §3 FieldState). -/
structure FieldState where
  name : String
  value : String
  touched : Bool
  error : Option String
deriving DecidableEq

/-- The form session aggregate (spec §3 FormSession). -/
structure FormSession where
  fields : List FieldState
  submitting : Bool
  submitCount : Nat
deriving DecidableEq

/-- Modelled from the spec: session start creates each field with its
`initialValue`, `touched = false`, no error. -/
def initSession (schema : List FieldSchema) : FormSession :=
  ⟨schema.map (fun f => ⟨f.name, f.initialValue, false, none⟩), false, 0⟩

/-- The current full value set of a session. -/
def sessionValues (s : FormSession) : List (String × String) :=
  s.fields.map (fun f => (f.name, f.value))

/-- Look up a field's computed violation in an engine result. -/
def lookupError (errs : List (String × Option String)) (name : String) : Option String :=
  match errs.find? (fun p => p.1 == name) with
  | some p => p.2
  | none => none

/-- Modelled from the spec: re-invoke the rule engine on the full current
value set and update every field's error state. -/
def revalidate (schema : List FieldSchema) (s : FormSession) : FormSession :=
  { s with
    fields := s.fields.map
      (fun f => { f with error := lookupError (evaluate schema (sessionValues s)) f.name }) }

/-- Modelled from the spec: `setFieldValue(name, value)` updates the value,
marks the field touched, and re-runs the engine for the full value set. -/
def setFieldValue (schema : List FieldSchema) (name value : String) (s : FormSession) :
    FormSession :=
  revalidate schema
    { s with
      fields := s.fields.map
        (fun f => if f.name == name then { f with value := value, touched := true } else f) }

/-- Modelled from the spec: `blurField(name)` marks the field touched without
changing its value, then re-runs validation. -/
def blurField (schema : List FieldSchema) (name : String) (s : FormSession) : FormSession :=
  revalidate schema
    { s with
      fields := s.fields.map
        (fun f => if f.name == name then { f with touched := true } else f) }

/-- Mark every field of the session touched. -/
def touchAll (s : FormSession) : FormSession :=
  { s with fields := s.fields.map (fun f => { f with touched := true }) }

/-- Whether any field currently carries a violation. -/
def hasError (s : FormSession) : Bool :=
  s.fields.any (fun f => f.error.isSome)

/-- Outcome of a submit attempt (spec §4.2). -/
inductive SubmitOutcome where
  | alreadySubmitting
  | validationFailed
  | started
deriving DecidableEq

/-- Modelled from the spec: `attemptSubmit()` is a no-op while `submitting`;
otherwise it marks every field touched, re-evaluates validity, and either
reports validation failure without invoking the callback, or sets
`submitting`, bumps `submitCount` and invokes the callback once with the clean
value set. Returns the new state, the invocations caused, and the outcome. -/
def attemptSubmit (schema : List FieldSchema) (s : FormSession) :
    FormSession × List (List (String × String)) × SubmitOutcome :=
  if s.submitting then (s, [], .alreadySubmitting)
  else
    let s1 := revalidate schema (touchAll s)
    if hasError s1 then (s1, [], .validationFailed)
    else ({ s1 with submitting := true, submitCount := s1.submitCount + 1 },
          [sessionValues s1], .started)

/-- Modelled from the spec: clearing `submitting` when the injected callback
settles, on every exit path. -/
def settleSubmit (s : FormSession) : FormSession :=
  { s with submitting := false }

/-- The violation of a named field in a session, `none` when the field is
valid or absent. -/
def fieldError (s : FormSession) (name : String) : Option String :=
  match s.fields.find? (fun f => f.name == name) with
  | some f => f.error
  | none => none

/-- A field's error as displayed by the visibility policy: shown only once the
field is touched (spec §4.2). -/
def displayedError (s : FormSession) (name : String) : Option String :=
  match s.fields.find? (fun f => f.name == name) with
  | some f => if f.touched then f.error else none
  | none => none

/-! ## The rendered submit control -/

/-- The observable attributes of the submit control rendered by `LoginForm`. -/
structure SubmitButtonView where
  buttonType : String
  className : String
  label : String
  disabled : Bool
deriving DecidableEq

/-- The submit control as rendered by `LoginForm` (source:
`<Button type='submit' className='w-full'>ログイン</Button>`): the render passes
no `disabled` prop, so the underlying button is enabled regardless of the
session state — the render does not read `submitting` at all. -/
def loginFormSubmitButton (_s : FormSession) : SubmitButtonView :=
  ⟨"submit", "w-full", "ログイン", false⟩

/-! ## Mock network handlers (`src/mocks/handlers.ts`) -/

/-- A mock user record. -/
structure User where
  id : Int
  name : String
  email : String
deriving DecidableEq

/-- The mock user list `mockUsers` from `handlers.ts`. -/
def mockUsers : List User :=
  [⟨1, "山田太郎", "yamada@example.com"⟩, ⟨2, "鈴木花子", "suzuki@example.com"⟩]

/-- A mock HTTP response: a status code and an optional user body (`none`
models the `null` body of error responses). -/
structure MockResponse where
  status : Nat
  body : Option User
deriving DecidableEq

/-- The `GET /api/users/:id` handler from `handlers.ts`, taking the numeric
value of the `:id` path parameter: finds the first user whose id equals it;
404 with empty body when none matches, 200 with the user otherwise. -/
def getUserByIdHandler (idParam : Int) : MockResponse :=
  match mockUsers.find? (fun u => u.id == idParam) with
  | some u => ⟨200, some u⟩
  | none => ⟨404, none⟩

/-! ## Concrete scenario states -/

/-- The session after entering a valid email and a valid password
(spec Scenario B). -/
def filledSession : FormSession :=
  setFieldValue loginFormSchema "password" "password123"
    (setFieldValue loginFormSchema "email" "user@example.com" (initSession loginFormSchema))

/-- An arbitrary session with the two fields of the login form. -/
def mkSession (e p : String) (te tp : Bool) (ee ep : Option String) (sub : Bool) (cnt : Nat) :
    FormSession :=
  ⟨[⟨"email", e, te, ee⟩, ⟨"password", p, tp, ep⟩], sub, cnt⟩

/-- The session after entering only a valid email, leaving the password empty
(spec PartiallyFilled scenario). -/
def emailOnlySession : FormSession :=
  setFieldValue loginFormSchema "email" "user@example.com" (initSession loginFormSchema)

/-! ## Claims -/

/-- C1: for the login-form schema, setting the email field to
`user@example.com` and the password field to `password123` and then attempting
submit invokes the injected submit callback exactly once, with its data
argument equal to the clean value set
`{email: 'user@example.com', password: 'password123'}`. -/
theorem filled_submit_invokes_once :
    (attemptSubmit loginFormSchema filledSession).2.1 =
      [[("email", "user@example.com"), ("password", "password123")]] := by
  decide

/-- A submit attempt on a session that is already submitting is a rejected
no-op: the state is unchanged, no callback invocation is caused, and the
outcome is the already-submitting signal. -/
theorem attemptSubmit_of_submitting (schema : List FieldSchema) (r : FormSession)
    (hr : r.submitting = true) :
    attemptSubmit schema r = (r, [], SubmitOutcome.alreadySubmitting) := by
  simp [attemptSubmit, hr]

/-- C2: for every form session not already submitting, if a submit attempt
leaves a submission pending, then a second `attemptSubmit` issued while it is
still pending is a no-op (state unchanged, outcome `alreadySubmitting`), and
the two calls together cause exactly one invocation of the injected
callback. -/
theorem at_most_one_submission (schema : List FieldSchema) (s : FormSession)
    (h : s.submitting = false)
    (hp : (attemptSubmit schema s).1.submitting = true) :
    ((attemptSubmit schema s).2.1 ++
        (attemptSubmit schema (attemptSubmit schema s).1).2.1).length = 1 ∧
      attemptSubmit schema (attemptSubmit schema s).1 =
        ((attemptSubmit schema s).1, [], SubmitOutcome.alreadySubmitting) := by
  have h2 := attemptSubmit_of_submitting schema (attemptSubmit schema s).1 hp
  refine ⟨?_, h2⟩
  rw [h2]
  by_cases hE : hasError (revalidate schema (touchAll s)) = true
  · exfalso
    have h1 : attemptSubmit schema s =
        (revalidate schema (touchAll s), [], SubmitOutcome.validationFailed) := by
      simp [attemptSubmit, h, hE]
    rw [h1] at hp
    have hsub : (revalidate schema (touchAll s)).submitting = false := by
      simp [revalidate, touchAll, h]
    rw [hsub] at hp
    exact Bool.false_ne_true hp
  · have h1 : attemptSubmit schema s =
        ({ revalidate schema (touchAll s) with
            submitting := true,
            submitCount := (revalidate schema (touchAll s)).submitCount + 1 },
          [sessionValues (revalidate schema (touchAll s))], SubmitOutcome.started) := by
      simp [attemptSubmit, h, hE]
    rw [h1]
    rfl

/-- C2 witness: the filled session is not submitting, its submit attempt
starts a pending submission, and a second attempt while pending is a rejected
no-op, for one invocation in total. -/
theorem at_most_one_submission_witness :
    ((attemptSubmit loginFormSchema filledSession).2.1 ++
        (attemptSubmit loginFormSchema (attemptSubmit loginFormSchema filledSession).1).2.1).length
        = 1 ∧
      attemptSubmit loginFormSchema (attemptSubmit loginFormSchema filledSession).1 =
        ((attemptSubmit loginFormSchema filledSession).1, [], SubmitOutcome.alreadySubmitting) :=
  at_most_one_submission loginFormSchema filledSession (by decide) (by decide)

/-- Per-field evaluation is first-failure-wins: it reports the message of the
first rule, in declared order, whose check fails, and nothing when all
pass. -/
theorem evalField_eq_first_failure (rules : List Rule) (v : String) :
    evalField rules v = (rules.find? (fun r => !(r.check v))).map Rule.message := by
  induction rules with
  | nil => rfl
  | cons r rs ih =>
    by_cases hc : r.check v = true
    · simp [evalField, List.find?, hc, ih]
    · simp [evalField, List.find?, hc]

/-- C3: for every field and every candidate value set, rules are evaluated in
declared order and evaluation stops at the first failing rule: the reported
violation is the first failing rule's message (even when a later rule would
also fail), and a field whose rules all pass reports no violation. -/
theorem first_failure_wins (schema : List FieldSchema) (values : List (String × String)) :
    evaluate schema values =
      schema.map (fun f =>
        (f.name,
          (f.rules.find? (fun r => !(r.check (lookupValue values f.name)))).map Rule.message)) := by
  simp [evaluate, evalField_eq_first_failure]

/-- C4: if any field is invalid at the moment of a submit attempt, the submit
callback is not invoked (no invocation, outcome `validationFailed`) and the
attempt marks every field touched, so every outstanding error becomes
visible. -/
theorem invalid_submit_no_invoke_touches_all (schema : List FieldSchema) (s : FormSession)
    (h : s.submitting = false)
    (hv : hasError (revalidate schema (touchAll s)) = true) :
    (attemptSubmit schema s).2.1 = [] ∧
      (attemptSubmit schema s).2.2 = SubmitOutcome.validationFailed ∧
      (attemptSubmit schema s).1.fields.all (fun f => f.touched) = true := by
  have h1 : attemptSubmit schema s =
      (revalidate schema (touchAll s), [], SubmitOutcome.validationFailed) := by
    simp [attemptSubmit, h, hv]
  rw [h1]
  refine ⟨rfl, rfl, ?_⟩
  simp [revalidate, touchAll, List.all_map, Function.comp]

/-- C4 witness: a session with a valid email but empty password is not
submitting, fails validation at submit, and the attempt invokes nothing while
touching every field. -/
theorem invalid_submit_no_invoke_touches_all_witness :
    (attemptSubmit loginFormSchema emailOnlySession).2.1 = [] ∧
      (attemptSubmit loginFormSchema emailOnlySession).2.2 = SubmitOutcome.validationFailed ∧
      (attemptSubmit loginFormSchema emailOnlySession).1.fields.all (fun f => f.touched) = true :=
  invalid_submit_no_invoke_touches_all loginFormSchema emailOnlySession (by decide) (by decide)

/-- C5 counterexample: a reachable session state in which `submitting` is true
while the submit control rendered by `LoginForm` is not disabled — the render
passes no `disabled` prop, so the control's disabled status does not track the
session's `submitting` state. -/
theorem submitting_not_disabled_counterexample :
    (attemptSubmit loginFormSchema filledSession).1.submitting = true ∧
      (loginFormSubmitButton (attemptSubmit loginFormSchema filledSession).1).disabled = false :=
  ⟨by decide, rfl⟩

/-- C5 amended: the submit control rendered by `LoginForm` is never disabled:
its disabled status is constantly false in every session state, including
while `submitting` is true, because the render passes no `disabled` prop. -/
theorem submit_button_never_disabled (s : FormSession) :
    (loginFormSubmitButton s).disabled = false :=
  rfl

/-- C6: after any session history, setting the email field to a value that
satisfies its rules via a value-change alone clears that field's error — no
additional blur is required, because the value change re-invokes the rule
engine and updates every field's error state. -/
theorem value_change_clears_error (e p : String) (te tp : Bool) (ee ep : Option String)
    (sub : Bool) (cnt : Nat) (v : String) (hv : isEmail v = true) :
    fieldError
        (setFieldValue loginFormSchema "email" v (mkSession e p te tp ee ep sub cnt))
        "email" = none := by
  simp [setFieldValue, mkSession, revalidate, sessionValues, evaluate, lookupValue, lookupError,
    evalField, fieldError, loginFormSchema, emailRule, List.find?, hv]

/-- C6 witness: in a session whose email field holds `invalid` with its error
visible, a value-change to `user@example.com` alone clears the email error. -/
theorem value_change_clears_error_witness :
    fieldError
        (setFieldValue loginFormSchema "email" "user@example.com"
          (mkSession "invalid" "" true false
            (some "有効なメールアドレスを入力してください") (some "パスワードは8文字以上である必要があります") false 0))
        "email" = none :=
  value_change_clears_error "invalid" "" true false
    (some "有効なメールアドレスを入力してください") (some "パスワードは8文字以上である必要があります") false 0
    "user@example.com" (by decide)

/-- C7: the rule engine evaluates the empty string like any other value: an
empty email fails the email format rule and yields that rule's violation
message, rather than being treated as a special not-yet-entered case with no
violation. -/
theorem empty_email_fails_format :
    evaluate loginFormSchema [("email", ""), ("password", "password123")] =
      [("email", some "有効なメールアドレスを入力してください"), ("password", none)] := by
  decide

/-- C8: the password minimum-length rule is inclusive at its bound: for every
string, the rule fails exactly when the length is strictly less than 8, so an
8-character password passes it. -/
theorem min_length_inclusive (v : String) :
    passwordMinRule.check v = false ↔ v.length < 8 := by
  simp [passwordMinRule, decide_eq_false_iff_not, Nat.not_le]

/-- C9: whenever the submit callback is invoked from any login-form session,
the data handed to it already satisfies the whole schema: the email value
passes the email format rule and the password value has length at least 8. -/
theorem callback_data_satisfies_schema (e p : String) (te tp : Bool) (ee ep : Option String)
    (sub : Bool) (cnt : Nat) :
    ((attemptSubmit loginFormSchema (mkSession e p te tp ee ep sub cnt)).2.1).all
      (fun inv =>
        isEmail (lookupValue inv "email") &&
          decide (8 ≤ (lookupValue inv "password").length)) = true := by
  cases sub with
  | true => simp [attemptSubmit, mkSession]
  | false =>
    by_cases hE : isEmail e = true
    · by_cases hP : 8 ≤ p.length
      · simp [attemptSubmit, mkSession, revalidate, touchAll, sessionValues, evaluate,
          lookupValue, lookupError, evalField, hasError, emailRule, passwordMinRule,
          loginFormSchema, List.find?, hE, hP]
      · simp [attemptSubmit, mkSession, revalidate, touchAll, sessionValues, evaluate,
          lookupValue, lookupError, evalField, hasError, emailRule, passwordMinRule,
          loginFormSchema, List.find?, hE, hP]
    · simp [attemptSubmit, mkSession, revalidate, touchAll, sessionValues, evaluate,
        lookupValue, lookupError, evalField, hasError, emailRule, passwordMinRule,
        loginFormSchema, List.find?, hE]

/-- C10: the mock `GET /api/users/:id` handler responds 404 with an empty body
exactly when no mock user's id equals the numeric value of the `:id`
parameter, and responds 200 with a user record exactly when that record is the
matching mock user. -/
theorem get_user_by_id_correct (idParam : Int) :
    ((getUserByIdHandler idParam).status = 404 ∧ (getUserByIdHandler idParam).body = none ↔
        ∀ u ∈ mockUsers, u.id ≠ idParam) ∧
      ∀ u : User,
        (getUserByIdHandler idParam).status = 200 ∧ (getUserByIdHandler idParam).body = some u ↔
          u ∈ mockUsers ∧ u.id = idParam := by
  by_cases h1 : (1 : Int) = idParam
  · subst h1
    have hh : getUserByIdHandler 1 = ⟨200, some ⟨1, "山田太郎", "yamada@example.com"⟩⟩ := by
      decide
    rw [hh]
    constructor
    · simp [mockUsers]
    · intro u
      simp only [Option.some.injEq, mockUsers, List.mem_cons, List.not_mem_nil, or_false]
      constructor
      · rintro ⟨-, rfl⟩
        exact ⟨Or.inl rfl, rfl⟩
      · rintro ⟨hu, hid⟩
        rcases hu with rfl | rfl
        · exact ⟨trivial, rfl⟩
        · exact absurd hid (by decide)
  · by_cases h2 : (2 : Int) = idParam
    · subst h2
      have hh : getUserByIdHandler 2 = ⟨200, some ⟨2, "鈴木花子", "suzuki@example.com"⟩⟩ := by
        decide
      rw [hh]
      constructor
      · simp [mockUsers]
      · intro u
        simp only [Option.some.injEq, mockUsers, List.mem_cons, List.not_mem_nil, or_false]
        constructor
        · rintro ⟨-, rfl⟩
          exact ⟨Or.inr rfl, rfl⟩
        · rintro ⟨hu, hid⟩
          rcases hu with rfl | rfl
          · exact absurd hid (by decide)
          · exact ⟨trivial, rfl⟩
    · have hf : mockUsers.find? (fun u => u.id == idParam) = none := by
        rw [List.find?_eq_none]
        intro u hu
        simp only [mockUsers, List.mem_cons, List.not_mem_nil, or_false] at hu
        rcases hu with rfl | rfl
        · simpa [beq_iff_eq] using h1
        · simpa [beq_iff_eq] using h2
      have hh : getUserByIdHandler idParam = ⟨404, none⟩ := by
        unfold getUserByIdHandler
        rw [hf]
      rw [hh]
      constructor
      · constructor
        · intro _ u hu
          simp only [mockUsers, List.mem_cons, List.not_mem_nil, or_false] at hu
          rcases hu with rfl | rfl
          · exact h1
          · exact h2
        · intro _
          exact ⟨rfl, rfl⟩
      · intro u
        constructor
        · rintro ⟨hstat, -⟩
          exact absurd hstat (by decide)
        · rintro ⟨hu, hid⟩
          simp only [mockUsers, List.mem_cons, List.not_mem_nil, or_false] at hu
          rcases hu with rfl | rfl
          · exact absurd hid h1
          · exact absurd hid h2

end LoginSpec
